import Mathlib

/-!
Verification of the interactive-examination session logic of
`imexam/connect.py` (class `Connect`) against its specification.

Python strings are modelled as `List Char` (`PyStr`): Python's
`s in t` for a single-character `s` is char membership, truthiness of a
string is non-emptiness, and `str.lower` is a character map.  Python
floats passed through unmodified (cursor coordinates) are modelled as
rationals.  The parts of class `Imexamine` that `connect.py` calls but
whose bodies are outside this repository slice (`register`,
`unlearn_all`, `get_options`, `print_options`, `do_option`) are
modelled from the specification; each such definition is marked in its
doc comment.
-/

set_option autoImplicit false

namespace ImexamModel

/-- Python strings, modelled as lists of characters. -/
abbrev PyStr := List Char

/-- A 2-D numeric pixel array (the data held by `Imexamine.set_data`). -/
abbrev PixelBuffer := List (List Int)

/-- Python exceptions that the modelled code can raise or mention.
`noImageLoadedError` is the error the specification names for
`start_session` on an empty filename; `other` stands for any exception
type not otherwise listed (for example a viewer-connection failure). -/
inductive PyExc where
  | keyError
  | indexError
  | nameError
  | notImplementedError
  | noImageLoadedError
  | other (tag : Nat)
deriving DecidableEq

/-- Modelled from the spec: a `KeyBinding` is the triple of handler
(identified opaquely by a number, since the session never inspects it),
one-line description, and a parameter record; `defaultParams` is the
binding's documented default parameter record, kept alongside so that
`unlearn_all` can restore it. -/
structure KeyBinding where
  handler : Nat
  description : PyStr
  params : List (PyStr × Int)
  defaultParams : List (PyStr × Int)
deriving DecidableEq, Inhabited

/-- Modelled from the spec: the key registry held by `Imexamine`, an
insertion-ordered mapping from single-character keys to bindings
(a Python `dict`). -/
abbrev Registry := List (PyStr × KeyBinding)

/-- Modelled from the spec: `Imexamine.register` adds a new entry at the
end, or overwrites the binding of an existing key in place (last write
wins, position — hence first-registration order — preserved), exactly as
a Python `dict` assignment behaves. -/
def registerKey : Registry → PyStr → KeyBinding → Registry
  | [], k, b => [(k, b)]
  | (k0, b0) :: rest, k, b =>
    if k0 = k then (k0, b) :: rest
    else (k0, b0) :: registerKey rest k b

/-- A sequence of `registerKey` calls all binding the same key `k`. -/
def registerSeq (r : Registry) (k : PyStr) (bs : List KeyBinding) : Registry :=
  bs.foldl (fun acc b => registerKey acc k b) r

/-- Modelled from the spec: exact, case-sensitive lookup of a key in the
registry. -/
def resolve : Registry → PyStr → Option KeyBinding
  | [], _ => none
  | (k0, b0) :: rest, k => if k0 = k then some b0 else resolve rest k

/-- Modelled from the spec: the registered keys in registration order
(`Imexamine.get_options`). -/
def list_keys (r : Registry) : List PyStr := r.map Prod.fst

/-- Modelled from the spec: `Imexamine.unlearn_all` resets every
binding's parameter record to its documented default without removing
any binding. -/
def unlearn_all (r : Registry) : Registry :=
  r.map (fun p => (p.1, { p.2 with params := p.2.defaultParams }))

/-- Result of one blocking `readcursor()` call on the viewer: either a
cursor event `(x, y, key)` or a raised exception. -/
inductive CursorResult where
  | ok (x y : Rat) (key : PyStr)
  | exn (e : PyExc)
deriving DecidableEq

/-- The viewer-supplied inputs consumed by one iteration of the
`_run_imexam` loop: the value `self.frame()` returns this iteration, the
array `self.window.get_data()` would return if fetched, the filename
`self.get_data_filename()` would report, and the outcome of
`self.readcursor()`. -/
structure IterInput where
  frameId : PyStr
  newData : PixelBuffer
  newFilename : PyStr
  cursor : CursorResult
deriving DecidableEq

/-- The session state `Connect` carries across loop iterations:
`self.current_frame` and the data array held by `self.exam`. -/
structure LoopState where
  currentFrame : PyStr
  examData : PixelBuffer
deriving DecidableEq

/-- Observable effects of a session, in order of occurrence:
`banner` is the `print` of the entry banner `Press 'q' to quit`;
`optionLine k d` is one line of `Imexamine.print_options` (one per
registered key, with its one-line description); `logFile f` is the
`logging.info` record of the current filename; `fetch d` is one
`self.window.get_data()` call; `readCursor` is one `self.readcursor()`
call; `invalidKeyMsg` is the `print` of `Invalid key`; `handlerCall b d
x y` is `Imexamine.do_option` dispatching to the binding `b` with the
current data array `d` and cursor position `(x, y)`; `warnNoImage` is
the warning `No image loaded in viewer`. -/
inductive Eff where
  | banner
  | optionLine (key : PyStr) (desc : PyStr)
  | logFile (f : PyStr)
  | fetch (d : PixelBuffer)
  | readCursor
  | invalidKeyMsg
  | handlerCall (b : Option KeyBinding) (d : PixelBuffer) (x y : Rat)
  | warnNoImage
deriving DecidableEq

/-- Outcome of running the session on a finite viewer script. -/
inductive Outcome where
  | completed
  | raised (e : PyExc)
  | starved
deriving DecidableEq

/-- Lines 102-106 of `connect.py`: compare `self.current_frame` with the
frame the viewer reports; on a change, fetch the data array, replace the
cached state, and log the current filename; otherwise do nothing. -/
def refreshStep (st : LoopState) (frameId : PyStr) (newData : PixelBuffer)
    (newFilename : PyStr) : LoopState × List Eff :=
  if st.currentFrame ≠ frameId then
    ({ currentFrame := frameId, examData := newData },
     [Eff.fetch newData, Eff.logFile newFilename])
  else (st, [])

/-- Modelled from the spec: `Imexamine.print_options` prints one line
per registered key with that key's one-line description, in registration
order. -/
def printOptionsEff (reg : Registry) : List Eff :=
  reg.map (fun p => Eff.optionLine p.1 p.2.description)

/-- The `while current_key:` loop of `Connect._run_imexam`
(lines 101-117 of `connect.py`), run on a finite script of viewer
inputs.  `ck` is the Python variable `current_key` (`none` models
Python's `None`); the loop body first performs the frame-change check,
then reads the cursor; a `KeyError` from `readcursor` prints
`Invalid key` and sets `current_key = 'q'`, which the following
`elif 'q' in current_key` turns into `None`; any other exception
propagates; an event key is classified by
`if current_key not in keys and 'q' not in current_key` /
`elif 'q' in current_key` / `else: do_option(x, y, current_key)`. -/
def runLoop (reg : Registry) : List IterInput → LoopState → Option PyStr →
    List Eff × Outcome
  | _, _, none => ([], Outcome.completed)
  | [], _, some ck =>
    if ck = [] then ([], Outcome.completed) else ([], Outcome.starved)
  | it :: rest, st, some ck =>
    if ck = [] then ([], Outcome.completed)
    else
      let st1 := (refreshStep st it.frameId it.newData it.newFilename).1
      let pre := (refreshStep st it.frameId it.newData it.newFilename).2
      match it.cursor with
      | CursorResult.exn e =>
        if e = PyExc.keyError then
          (pre ++ [Eff.readCursor, Eff.invalidKeyMsg], Outcome.completed)
        else
          (pre ++ [Eff.readCursor], Outcome.raised e)
      | CursorResult.ok x y key =>
        if key ∉ list_keys reg ∧ key.contains 'q' = false then
          let r := runLoop reg rest st1 (some key)
          (pre ++ Eff.readCursor :: Eff.invalidKeyMsg :: r.1, r.2)
        else if key.contains 'q' = true then
          (pre ++ [Eff.readCursor], Outcome.completed)
        else
          let r := runLoop reg rest st1 (some key)
          (pre ++ Eff.readCursor :: Eff.handlerCall (resolve reg key) st1.examData x y :: r.1,
           r.2)

/-- `Connect._run_imexam` (lines 93-117 of `connect.py`): print the
entry banner, print the option list, set `current_key = keys[0]`
(an `IndexError` if the registry is empty), log the current filename,
then run the loop. -/
def run_imexam (reg : Registry) (fname : PyStr) (script : List IterInput)
    (st : LoopState) : List Eff × Outcome :=
  match list_keys reg with
  | [] => (Eff.banner :: printOptionsEff reg, Outcome.raised PyExc.indexError)
  | k0 :: _ =>
    let r := runLoop reg script st (some k0)
    (Eff.banner :: printOptionsEff reg ++ Eff.logFile fname :: r.1, r.2)

/-- `Connect.imexam` (lines 78-87 of `connect.py`): if the viewer
reports a falsy (empty) filename, warn `No image loaded in viewer` and
return; otherwise fetch the data array into `self.exam`, record the
current frame, and run `_run_imexam`. -/
def imexam (reg : Registry) (fname : PyStr) (initData : PixelBuffer)
    (initFrame : PyStr) (script : List IterInput) : List Eff × Outcome :=
  if fname = [] then ([Eff.warnNoImage], Outcome.completed)
  else
    let r := run_imexam reg fname script
      { currentFrame := initFrame, examData := initData }
    (Eff.fetch initData :: r.1, r.2)

/-- Recognizes the `Invalid key` message in a trace. -/
def isInvalidEff : Eff → Bool
  | Eff.invalidKeyMsg => true
  | _ => false

/-- Recognizes a handler dispatch in a trace. -/
def isHandlerEff : Eff → Bool
  | Eff.handlerCall _ _ _ _ => true
  | _ => false

/-- Recognizes a `readcursor()` call in a trace. -/
def isReadEff : Eff → Bool
  | Eff.readCursor => true
  | _ => false

/-- Recognizes a `get_data()` fetch in a trace. -/
def isFetchEff : Eff → Bool
  | Eff.fetch _ => true
  | _ => false

/-- Number of `Invalid key` messages in a trace. -/
def countInvalid (t : List Eff) : Nat := t.countP isInvalidEff

/-- Number of handler dispatches in a trace. -/
def countHandler (t : List Eff) : Nat := t.countP isHandlerEff

/-- Number of `readcursor()` calls in a trace. -/
def countReads (t : List Eff) : Nat := t.countP isReadEff

/-- Number of `get_data()` fetches in a trace. -/
def countFetch (t : List Eff) : Nat := t.countP isFetchEff

end ImexamModel

namespace ImexamModel

theorem resolve_registerKey_self (r : Registry) (k : PyStr) (b : KeyBinding) :
    resolve (registerKey r k b) k = some b := by
  induction r with
  | nil => simp [registerKey, resolve]
  | cons p rest ih =>
    by_cases h : p.1 = k
    · simp [registerKey, resolve, h]
    · simp [registerKey, resolve, h, ih]

theorem list_keys_registerKey (r : Registry) (k : PyStr) (b : KeyBinding) :
    list_keys (registerKey r k b) =
      if k ∈ list_keys r then list_keys r else list_keys r ++ [k] := by
  induction r with
  | nil => simp [registerKey, list_keys]
  | cons p rest ih =>
    obtain ⟨k0, b0⟩ := p
    by_cases h : k0 = k
    · subst h
      simp [registerKey, list_keys]
    · have hne : ¬(k = k0) := fun hk => h hk.symm
      simp only [registerKey, if_neg h]
      have hcons : list_keys ((k0, b0) :: registerKey rest k b) =
          k0 :: list_keys (registerKey rest k b) := rfl
      rw [hcons, ih]
      simp only [list_keys, List.map_cons, List.mem_cons]
      by_cases hm : k ∈ List.map Prod.fst rest
      · rw [if_pos hm, if_pos (Or.inr hm)]
      · rw [if_neg hm, if_neg ?_]
        · rfl
        · rintro (h1 | h2)
          · exact hne h1
          · exact hm h2

theorem mem_list_keys_registerKey (r : Registry) (k : PyStr) (b : KeyBinding) :
    k ∈ list_keys (registerKey r k b) := by
  rw [list_keys_registerKey]
  by_cases h : k ∈ list_keys r <;> simp [h]

theorem list_keys_registerKey_of_mem (r : Registry) (k : PyStr) (b : KeyBinding)
    (h : k ∈ list_keys r) :
    list_keys (registerKey r k b) = list_keys r := by
  rw [list_keys_registerKey, if_pos h]

/-- C5: re-registering a key overwrites the prior binding in place:
after any nonempty sequence of `registerKey` calls for the same key `k`,
`resolve k` returns the most recently registered binding, `list_keys` is
exactly what it was after the first registration of `k` (so an overwrite
never moves `k`), and the first registration appends `k` at the end only
when `k` was absent. -/
theorem register_last_write_wins (r : Registry) (k : PyStr) (b : KeyBinding)
    (bs : List KeyBinding) :
    resolve (registerSeq r k (b :: bs)) k = some (bs.getLastD b) ∧
    list_keys (registerSeq r k (b :: bs)) = list_keys (registerKey r k b) ∧
    list_keys (registerKey r k b) =
      if k ∈ list_keys r then list_keys r else list_keys r ++ [k] := by
  refine ⟨?_, ?_, list_keys_registerKey r k b⟩
  · induction bs generalizing r b with
    | nil => exact resolve_registerKey_self r k b
    | cons b2 bs ih =>
      rw [List.getLastD_cons]
      exact ih (registerKey r k b) b2
  · induction bs generalizing r b with
    | nil => rfl
    | cons b2 bs ih =>
      calc list_keys (registerSeq r k (b :: b2 :: bs))
          = list_keys (registerSeq (registerKey r k b) k (b2 :: bs)) := rfl
        _ = list_keys (registerKey (registerKey r k b) k b2) :=
            ih (registerKey r k b) b2
        _ = list_keys (registerKey r k b) :=
            list_keys_registerKey_of_mem _ _ _ (mem_list_keys_registerKey r k b)

theorem resolve_unlearn_all (r : Registry) (k : PyStr) :
    resolve (unlearn_all r) k =
      (resolve r k).map (fun b => { b with params := b.defaultParams }) := by
  induction r with
  | nil => rfl
  | cons p rest ih =>
    have hcons : unlearn_all (p :: rest) =
        (p.1, { p.2 with params := p.2.defaultParams }) :: unlearn_all rest := rfl
    rw [hcons]
    by_cases h : p.1 = k
    · simp [resolve, h]
    · simp [resolve, h, ih]

/-- C6: `unlearn_all` resets every binding's parameter record to its
documented default while leaving the bindings themselves unchanged: the
keys are the same and in the same order, a key resolves after the call
exactly when it resolved before, and each resolved binding keeps its
handler and description, with only `params` reset to `defaultParams`. -/
theorem unlearn_preserves_bindings (r : Registry) :
    list_keys (unlearn_all r) = list_keys r ∧
    (∀ k b, resolve r k = some b →
       resolve (unlearn_all r) k =
         some { handler := b.handler, description := b.description,
                params := b.defaultParams, defaultParams := b.defaultParams }) ∧
    (∀ k, resolve r k = none → resolve (unlearn_all r) k = none) := by
  refine ⟨?_, ?_, ?_⟩
  · simp [unlearn_all, list_keys]
  · intro k b hb
    rw [resolve_unlearn_all, hb]
    rfl
  · intro k hk
    rw [resolve_unlearn_all, hk]
    rfl

/-- Witness for `unlearn_preserves_bindings` at a two-entry registry. -/
theorem unlearn_preserves_bindings_witness :
    resolve (unlearn_all [(['a'], ⟨1, ['A'], [(['r'], 5)], [(['r'], 3)]⟩),
                          (['b'], ⟨2, ['B'], [], []⟩)]) ['a'] =
      some ⟨1, ['A'], [(['r'], 3)], [(['r'], 3)]⟩ := by
  have h := (unlearn_preserves_bindings
    [(['a'], ⟨1, ['A'], [(['r'], 5)], [(['r'], 3)]⟩),
     (['b'], ⟨2, ['B'], [], []⟩)]).2.1 ['a'] ⟨1, ['A'], [(['r'], 5)], [(['r'], 3)]⟩
    (by decide)
  simpa using h

end ImexamModel

namespace ImexamModel

theorem ne_nil_of_length_one (a : PyStr) (h : a.length = 1) : a ≠ [] := by
  obtain ⟨c, rfl⟩ := List.length_eq_one.mp h
  simp

theorem contains_q_eq_false_of_single (a : PyStr) (h1 : a.length = 1)
    (h2 : a ≠ ['q']) : a.contains 'q' = false := by
  obtain ⟨c, rfl⟩ := List.length_eq_one.mp h1
  have hc : ¬('q' = c) := fun h => h2 (by rw [h])
  have hb : ('q' == c) = false := beq_eq_false_iff_ne.mpr hc
  simp [List.contains, List.elem, hb]

theorem refreshStep_same (st : LoopState) (fid : PyStr) (d : PixelBuffer)
    (fn : PyStr) (h : st.currentFrame = fid) : refreshStep st fid d fn = (st, []) := by
  simp [refreshStep, h]

theorem runLoop_cons_ok (reg : Registry) (it : IterInput) (rest : List IterInput)
    (st : LoopState) (ck : PyStr) (x y : Rat) (key : PyStr)
    (hck : ¬(ck = [])) (hcur : it.cursor = CursorResult.ok x y key) :
    runLoop reg (it :: rest) st (some ck) =
      (if key ∉ list_keys reg ∧ key.contains 'q' = false then
         ((refreshStep st it.frameId it.newData it.newFilename).2 ++
            Eff.readCursor :: Eff.invalidKeyMsg ::
              (runLoop reg rest (refreshStep st it.frameId it.newData it.newFilename).1
                (some key)).1,
          (runLoop reg rest (refreshStep st it.frameId it.newData it.newFilename).1
            (some key)).2)
       else if key.contains 'q' = true then
         ((refreshStep st it.frameId it.newData it.newFilename).2 ++ [Eff.readCursor],
          Outcome.completed)
       else
         ((refreshStep st it.frameId it.newData it.newFilename).2 ++
            Eff.readCursor ::
              Eff.handlerCall (resolve reg key)
                (refreshStep st it.frameId it.newData it.newFilename).1.examData x y ::
              (runLoop reg rest (refreshStep st it.frameId it.newData it.newFilename).1
                (some key)).1,
          (runLoop reg rest (refreshStep st it.frameId it.newData it.newFilename).1
            (some key)).2)) := by
  simp only [runLoop, if_neg hck, hcur]

theorem runLoop_cons_exn (reg : Registry) (it : IterInput) (rest : List IterInput)
    (st : LoopState) (ck : PyStr) (e : PyExc)
    (hck : ¬(ck = [])) (hcur : it.cursor = CursorResult.exn e) :
    runLoop reg (it :: rest) st (some ck) =
      (if e = PyExc.keyError then
         ((refreshStep st it.frameId it.newData it.newFilename).2 ++
            [Eff.readCursor, Eff.invalidKeyMsg], Outcome.completed)
       else
         ((refreshStep st it.frameId it.newData it.newFilename).2 ++ [Eff.readCursor],
          Outcome.raised e)) := by
  simp only [runLoop, if_neg hck, hcur]

theorem runLoop_dispatch (reg : Registry) (it : IterInput) (rest : List IterInput)
    (st : LoopState) (ck : PyStr) (x y : Rat) (key : PyStr)
    (hck : ¬(ck = [])) (hcur : it.cursor = CursorResult.ok x y key)
    (hk : key ∈ list_keys reg) (hq : key.contains 'q' = false) :
    runLoop reg (it :: rest) st (some ck) =
      ((refreshStep st it.frameId it.newData it.newFilename).2 ++
         Eff.readCursor ::
           Eff.handlerCall (resolve reg key)
             (refreshStep st it.frameId it.newData it.newFilename).1.examData x y ::
           (runLoop reg rest (refreshStep st it.frameId it.newData it.newFilename).1
             (some key)).1,
       (runLoop reg rest (refreshStep st it.frameId it.newData it.newFilename).1
         (some key)).2) := by
  rw [runLoop_cons_ok reg it rest st ck x y key hck hcur]
  rw [if_neg (fun hc => hc.1 hk), if_neg (by simpa using hq)]

theorem runLoop_invalid (reg : Registry) (it : IterInput) (rest : List IterInput)
    (st : LoopState) (ck : PyStr) (x y : Rat) (key : PyStr)
    (hck : ¬(ck = [])) (hcur : it.cursor = CursorResult.ok x y key)
    (hk : key ∉ list_keys reg) (hq : key.contains 'q' = false) :
    runLoop reg (it :: rest) st (some ck) =
      ((refreshStep st it.frameId it.newData it.newFilename).2 ++
         Eff.readCursor :: Eff.invalidKeyMsg ::
           (runLoop reg rest (refreshStep st it.frameId it.newData it.newFilename).1
             (some key)).1,
       (runLoop reg rest (refreshStep st it.frameId it.newData it.newFilename).1
         (some key)).2) := by
  rw [runLoop_cons_ok reg it rest st ck x y key hck hcur]
  rw [if_pos ⟨hk, hq⟩]

theorem runLoop_quit (reg : Registry) (it : IterInput) (rest : List IterInput)
    (st : LoopState) (ck : PyStr) (x y : Rat) (key : PyStr)
    (hck : ¬(ck = [])) (hcur : it.cursor = CursorResult.ok x y key)
    (hq : key.contains 'q' = true) :
    runLoop reg (it :: rest) st (some ck) =
      ((refreshStep st it.frameId it.newData it.newFilename).2 ++ [Eff.readCursor],
       Outcome.completed) := by
  rw [runLoop_cons_ok reg it rest st ck x y key hck hcur]
  have hq2 : ¬(key.contains 'q' = false) := by simpa using hq
  rw [if_neg (fun hc => hq2 hc.2), if_pos hq]

theorem run_imexam_cons (reg : Registry) (fname : PyStr) (script : List IterInput)
    (st : LoopState) (k0 : PyStr) (ks : List PyStr) (h : list_keys reg = k0 :: ks) :
    run_imexam reg fname script st =
      (Eff.banner :: printOptionsEff reg ++
         Eff.logFile fname :: (runLoop reg script st (some k0)).1,
       (runLoop reg script st (some k0)).2) := by
  unfold run_imexam
  rw [h]

theorem imexam_not_empty (reg : Registry) (fname : PyStr) (initData : PixelBuffer)
    (initFrame : PyStr) (script : List IterInput) (hf : ¬(fname = [])) :
    imexam reg fname initData initFrame script =
      (Eff.fetch initData ::
         (run_imexam reg fname script ⟨initFrame, initData⟩).1,
       (run_imexam reg fname script ⟨initFrame, initData⟩).2) := by
  simp only [imexam, if_neg hf]

theorem exists_head_key (reg : Registry) (a : PyStr) (ha : a ∈ list_keys reg) :
    ∃ k0 ks, list_keys reg = k0 :: ks := by
  cases h : list_keys reg with
  | nil => rw [h] at ha; cases ha
  | cons k0 ks => exact ⟨k0, ks, rfl⟩

theorem countInvalid_append (s t : List Eff) :
    countInvalid (s ++ t) = countInvalid s + countInvalid t := by
  simp [countInvalid, List.countP_append]

theorem countHandler_append (s t : List Eff) :
    countHandler (s ++ t) = countHandler s + countHandler t := by
  simp [countHandler, List.countP_append]

theorem countReads_append (s t : List Eff) :
    countReads (s ++ t) = countReads s + countReads t := by
  simp [countReads, List.countP_append]

theorem countInvalid_cons (e : Eff) (t : List Eff) :
    countInvalid (e :: t) = countInvalid t + (if isInvalidEff e then 1 else 0) :=
  List.countP_cons _ _ _

theorem countHandler_cons (e : Eff) (t : List Eff) :
    countHandler (e :: t) = countHandler t + (if isHandlerEff e then 1 else 0) :=
  List.countP_cons _ _ _

theorem countReads_cons (e : Eff) (t : List Eff) :
    countReads (e :: t) = countReads t + (if isReadEff e then 1 else 0) :=
  List.countP_cons _ _ _

theorem countInvalid_printOptions (reg : Registry) :
    countInvalid (printOptionsEff reg) = 0 := by
  induction reg with
  | nil => rfl
  | cons p rest ih =>
    have hcons : printOptionsEff (p :: rest) =
        Eff.optionLine p.1 p.2.description :: printOptionsEff rest := rfl
    rw [hcons, countInvalid_cons, ih]
    rfl

theorem countHandler_printOptions (reg : Registry) :
    countHandler (printOptionsEff reg) = 0 := by
  induction reg with
  | nil => rfl
  | cons p rest ih =>
    have hcons : printOptionsEff (p :: rest) =
        Eff.optionLine p.1 p.2.description :: printOptionsEff rest := rfl
    rw [hcons, countHandler_cons, ih]
    rfl

theorem countReads_printOptions (reg : Registry) :
    countReads (printOptionsEff reg) = 0 := by
  induction reg with
  | nil => rfl
  | cons p rest ih =>
    have hcons : printOptionsEff (p :: rest) =
        Eff.optionLine p.1 p.2.description :: printOptionsEff rest := rfl
    rw [hcons, countReads_cons, ih]
    rfl

theorem countInvalid_refresh (st : LoopState) (fid : PyStr) (d : PixelBuffer)
    (fn : PyStr) : countInvalid (refreshStep st fid d fn).2 = 0 := by
  unfold refreshStep
  split <;> rfl

theorem countHandler_refresh (st : LoopState) (fid : PyStr) (d : PixelBuffer)
    (fn : PyStr) : countHandler (refreshStep st fid d fn).2 = 0 := by
  unfold refreshStep
  split <;> rfl

theorem readCursor_not_mem_printOptions (reg : Registry) :
    Eff.readCursor ∉ printOptionsEff reg := by
  intro hmem
  simp [printOptionsEff] at hmem

end ImexamModel

namespace ImexamModel

theorem runLoop_dispatch_mk (reg : Registry) (fid : PyStr) (nd : PixelBuffer)
    (nf : PyStr) (rest : List IterInput) (st : LoopState) (ck : PyStr)
    (x y : Rat) (key : PyStr)
    (hck : ¬(ck = [])) (hk : key ∈ list_keys reg) (hq : key.contains 'q' = false) :
    runLoop reg (⟨fid, nd, nf, CursorResult.ok x y key⟩ :: rest) st (some ck) =
      ((refreshStep st fid nd nf).2 ++
         Eff.readCursor ::
           Eff.handlerCall (resolve reg key) (refreshStep st fid nd nf).1.examData x y ::
           (runLoop reg rest (refreshStep st fid nd nf).1 (some key)).1,
       (runLoop reg rest (refreshStep st fid nd nf).1 (some key)).2) :=
  runLoop_dispatch reg ⟨fid, nd, nf, CursorResult.ok x y key⟩ rest st ck x y key
    hck rfl hk hq

theorem runLoop_invalid_mk (reg : Registry) (fid : PyStr) (nd : PixelBuffer)
    (nf : PyStr) (rest : List IterInput) (st : LoopState) (ck : PyStr)
    (x y : Rat) (key : PyStr)
    (hck : ¬(ck = [])) (hk : key ∉ list_keys reg) (hq : key.contains 'q' = false) :
    runLoop reg (⟨fid, nd, nf, CursorResult.ok x y key⟩ :: rest) st (some ck) =
      ((refreshStep st fid nd nf).2 ++
         Eff.readCursor :: Eff.invalidKeyMsg ::
           (runLoop reg rest (refreshStep st fid nd nf).1 (some key)).1,
       (runLoop reg rest (refreshStep st fid nd nf).1 (some key)).2) :=
  runLoop_invalid reg ⟨fid, nd, nf, CursorResult.ok x y key⟩ rest st ck x y key
    hck rfl hk hq

theorem runLoop_quit_mk (reg : Registry) (fid : PyStr) (nd : PixelBuffer)
    (nf : PyStr) (rest : List IterInput) (st : LoopState) (ck : PyStr)
    (x y : Rat) (key : PyStr)
    (hck : ¬(ck = [])) (hq : key.contains 'q' = true) :
    runLoop reg (⟨fid, nd, nf, CursorResult.ok x y key⟩ :: rest) st (some ck) =
      ((refreshStep st fid nd nf).2 ++ [Eff.readCursor], Outcome.completed) :=
  runLoop_quit reg ⟨fid, nd, nf, CursorResult.ok x y key⟩ rest st ck x y key
    hck rfl hq

theorem runLoop_exn_mk (reg : Registry) (fid : PyStr) (nd : PixelBuffer)
    (nf : PyStr) (rest : List IterInput) (st : LoopState) (ck : PyStr) (e : PyExc)
    (hck : ¬(ck = [])) :
    runLoop reg (⟨fid, nd, nf, CursorResult.exn e⟩ :: rest) st (some ck) =
      (if e = PyExc.keyError then
         ((refreshStep st fid nd nf).2 ++ [Eff.readCursor, Eff.invalidKeyMsg],
          Outcome.completed)
       else
         ((refreshStep st fid nd nf).2 ++ [Eff.readCursor], Outcome.raised e)) :=
  runLoop_cons_exn reg ⟨fid, nd, nf, CursorResult.exn e⟩ rest st ck e hck rfl

end ImexamModel

namespace ImexamModel

/-- C1 counterexample: a viewer whose `get_filename()` is empty, with a
pending cursor event scripted.  `Connect.imexam` does not fail with
`NoImageLoadedError` (or any exception): it issues the warning
`No image loaded in viewer` and returns normally, so the claim that it
"fails with NoImageLoadedError" is false on the code. -/
theorem imexam_no_image_cex :
    imexam [(['a'], ⟨1, ['a'], [], []⟩)] [] [[0]] ['1']
        [⟨['1'], [[0]], [], CursorResult.ok 0 0 ['a']⟩]
      = ([Eff.warnNoImage], Outcome.completed) ∧
    (imexam [(['a'], ⟨1, ['a'], [], []⟩)] [] [[0]] ['1']
        [⟨['1'], [[0]], [], CursorResult.ok 0 0 ['a']⟩]).2
      ≠ Outcome.raised PyExc.noImageLoadedError := by
  constructor
  · rfl
  · decide

/-- C1 (amended): for every registry, data array, initial frame and
viewer script, calling `Connect.imexam` while the viewer reports an
empty filename issues the warning `No image loaded in viewer` and
returns normally — no exception (in particular no `NoImageLoadedError`)
is raised — and the interactive loop is not entered: zero cursor reads
are attempted and no handler is invoked. -/
theorem imexam_empty_filename_warns (reg : Registry) (d : PixelBuffer)
    (fr : PyStr) (script : List IterInput) :
    imexam reg [] d fr script = ([Eff.warnNoImage], Outcome.completed) ∧
    countReads (imexam reg [] d fr script).1 = 0 ∧
    countHandler (imexam reg [] d fr script).1 = 0 :=
  ⟨rfl, rfl, rfl⟩

/-- C3: on a loop iteration, if the viewer's frame identity equals the
cached `current_frame` then no pixel data is fetched and the cached
state is untouched; if it differs, exactly one fetch occurs, the cached
data is replaced by the freshly fetched buffer, and `current_frame` is
updated to the new identity (`refreshStep` is the frame-check prologue
executed by every iteration of `runLoop`). -/
theorem refresh_if_changed_spec (st : LoopState) (fid : PyStr)
    (d : PixelBuffer) (fn : PyStr) :
    (st.currentFrame = fid →
       refreshStep st fid d fn = (st, []) ∧
       countFetch (refreshStep st fid d fn).2 = 0) ∧
    (st.currentFrame ≠ fid →
       refreshStep st fid d fn =
         ({ currentFrame := fid, examData := d }, [Eff.fetch d, Eff.logFile fn]) ∧
       countFetch (refreshStep st fid d fn).2 = 1) := by
  constructor
  · intro h
    have he := refreshStep_same st fid d fn h
    exact ⟨he, by rw [he]; rfl⟩
  · intro h
    have he : refreshStep st fid d fn =
        ({ currentFrame := fid, examData := d }, [Eff.fetch d, Eff.logFile fn]) := by
      simp [refreshStep, h]
    exact ⟨he, by rw [he]; rfl⟩

/-- Witness for `refresh_if_changed_spec`: an unchanged frame performs
no fetch and leaves the state alone; a changed frame performs exactly
the one fetch and replaces both fields. -/
theorem refresh_if_changed_witness :
    refreshStep ⟨['1'], [[0]]⟩ ['1'] [[5]] ['f'] = (⟨['1'], [[0]]⟩, []) ∧
    refreshStep ⟨['1'], [[0]]⟩ ['2'] [[5]] ['f'] =
      (⟨['2'], [[5]]⟩, [Eff.fetch [[5]], Eff.logFile ['f']]) :=
  ⟨((refresh_if_changed_spec ⟨['1'], [[0]]⟩ ['1'] [[5]] ['f']).1 (by decide)).1,
   ((refresh_if_changed_spec ⟨['1'], [[0]]⟩ ['2'] [[5]] ['f']).2 (by decide)).1⟩

/-- C4 counterexample: a `readcursor()` failure that is not a `KeyError`
(here an arbitrary non-`KeyError` exception, e.g. a lost viewer
connection) is not converted into a forced quit: it propagates out of
`Connect.imexam` as an unhandled exception, so the session does not
reach the `Terminated` state. -/
theorem read_failure_cex :
    (imexam [(['a'], ⟨1, ['a'], [], []⟩)] ['f'] [[0]] ['1']
        [⟨['1'], [[0]], ['f'], CursorResult.exn (PyExc.other 0)⟩]).2
      = Outcome.raised (PyExc.other 0) ∧
    (imexam [(['a'], ⟨1, ['a'], [], []⟩)] ['f'] [[0]] ['1']
        [⟨['1'], [[0]], ['f'], CursorResult.exn (PyExc.other 0)⟩]).2
      ≠ Outcome.completed := by
  constructor
  · rfl
  · decide

/-- C4 (amended): only a `KeyError` raised while blocking on the cursor
read is converted into a forced quit — the loop prints `Invalid key`,
sets the current key to the quit character and terminates cleanly; an
exception of any other type raised by `readcursor()` propagates out of
the loop unhandled. -/
theorem read_failure_policy (reg : Registry) (fid : PyStr) (nd : PixelBuffer)
    (nf : PyStr) (rest : List IterInput) (st : LoopState) (ck : PyStr)
    (hck : ck ≠ []) :
    (runLoop reg (⟨fid, nd, nf, CursorResult.exn PyExc.keyError⟩ :: rest) st (some ck) =
       ((refreshStep st fid nd nf).2 ++ [Eff.readCursor, Eff.invalidKeyMsg],
        Outcome.completed)) ∧
    (∀ e, e ≠ PyExc.keyError →
       runLoop reg (⟨fid, nd, nf, CursorResult.exn e⟩ :: rest) st (some ck) =
         ((refreshStep st fid nd nf).2 ++ [Eff.readCursor], Outcome.raised e)) := by
  constructor
  · rw [runLoop_exn_mk reg fid nd nf rest st ck PyExc.keyError hck, if_pos rfl]
  · intro e hne
    rw [runLoop_exn_mk reg fid nd nf rest st ck e hck, if_neg hne]

/-- Witness for `read_failure_policy`: with a matching frame, a
`KeyError` terminates the loop cleanly after printing `Invalid key`,
while a different exception is re-raised. -/
theorem read_failure_policy_witness :
    runLoop [(['a'], ⟨1, ['a'], [], []⟩)]
        [⟨['1'], [[0]], ['f'], CursorResult.exn PyExc.keyError⟩]
        ⟨['1'], [[0]]⟩ (some ['a'])
      = ([Eff.readCursor, Eff.invalidKeyMsg], Outcome.completed) ∧
    runLoop [(['a'], ⟨1, ['a'], [], []⟩)]
        [⟨['1'], [[0]], ['f'], CursorResult.exn (PyExc.other 3)⟩]
        ⟨['1'], [[0]]⟩ (some ['a'])
      = ([Eff.readCursor], Outcome.raised (PyExc.other 3)) := by
  constructor
  · exact ((read_failure_policy [(['a'], ⟨1, ['a'], [], []⟩)] ['1'] [[0]] ['f'] []
      ⟨['1'], [[0]]⟩ ['a'] (by decide)).1).trans (by decide)
  · exact ((read_failure_policy [(['a'], ⟨1, ['a'], [], []⟩)] ['1'] [[0]] ['f'] []
      ⟨['1'], [[0]]⟩ ['a'] (by decide)).2 (PyExc.other 3) (by decide)).trans (by decide)

end ImexamModel

namespace ImexamModel

theorem countHandler_header (reg : Registry) (d0 : PixelBuffer) (t : List Eff) :
    countHandler (Eff.fetch d0 :: Eff.banner :: printOptionsEff reg ++ t) =
      countHandler t := by
  have hsh : Eff.fetch d0 :: Eff.banner :: printOptionsEff reg ++ t =
      Eff.fetch d0 :: Eff.banner :: (printOptionsEff reg ++ t) := rfl
  rw [hsh, countHandler_cons, countHandler_cons, countHandler_append,
      countHandler_printOptions]
  simp [isHandlerEff]

theorem countInvalid_header (reg : Registry) (d0 : PixelBuffer) (t : List Eff) :
    countInvalid (Eff.fetch d0 :: Eff.banner :: printOptionsEff reg ++ t) =
      countInvalid t := by
  have hsh : Eff.fetch d0 :: Eff.banner :: printOptionsEff reg ++ t =
      Eff.fetch d0 :: Eff.banner :: (printOptionsEff reg ++ t) := rfl
  rw [hsh, countInvalid_cons, countInvalid_cons, countInvalid_append,
      countInvalid_printOptions]
  simp [isInvalidEff]

/-- C2: for the cursor-event script `[a, u, q]` — `a` a registered
single-character key other than the quit character, `u` an unregistered
single-character key other than the quit character — the session
invokes exactly one handler (the binding resolved for `a`, called with
the current data buffer and that event's coordinates), prints exactly
one `Invalid key` message (for `u`), and terminates cleanly on `q`
without invoking any handler for the quit event; any further scripted
events are never consumed. -/
theorem session_one_handler_one_invalid
    (reg : Registry) (fname : PyStr) (d0 : PixelBuffer) (f0 : PyStr)
    (a u : PyStr) (x1 y1 x2 y2 x3 y3 : Rat) (rest : List IterInput)
    (ha : a ∈ list_keys reg) (ha1 : a.length = 1) (haq : a ≠ ['q'])
    (hu : u ∉ list_keys reg) (hu1 : u.length = 1) (huq : u ≠ ['q'])
    (hf : fname ≠ []) (hnil : [] ∉ list_keys reg) :
    imexam reg fname d0 f0
        (⟨f0, d0, fname, CursorResult.ok x1 y1 a⟩ ::
         ⟨f0, d0, fname, CursorResult.ok x2 y2 u⟩ ::
         ⟨f0, d0, fname, CursorResult.ok x3 y3 ['q']⟩ :: rest)
      = (Eff.fetch d0 :: Eff.banner :: printOptionsEff reg ++
          [Eff.logFile fname, Eff.readCursor,
           Eff.handlerCall (resolve reg a) d0 x1 y1,
           Eff.readCursor, Eff.invalidKeyMsg, Eff.readCursor],
         Outcome.completed) ∧
    countHandler (imexam reg fname d0 f0
        (⟨f0, d0, fname, CursorResult.ok x1 y1 a⟩ ::
         ⟨f0, d0, fname, CursorResult.ok x2 y2 u⟩ ::
         ⟨f0, d0, fname, CursorResult.ok x3 y3 ['q']⟩ :: rest)).1 = 1 ∧
    countInvalid (imexam reg fname d0 f0
        (⟨f0, d0, fname, CursorResult.ok x1 y1 a⟩ ::
         ⟨f0, d0, fname, CursorResult.ok x2 y2 u⟩ ::
         ⟨f0, d0, fname, CursorResult.ok x3 y3 ['q']⟩ :: rest)).1 = 1 := by
  obtain ⟨k0, ks, hks⟩ := exists_head_key reg a ha
  have hk0 : ¬(k0 = []) := by
    intro h0
    apply hnil
    rw [hks, h0]
    exact List.mem_cons_self _ _
  have hane : ¬(a = []) := ne_nil_of_length_one a ha1
  have hune : ¬(u = []) := ne_nil_of_length_one u hu1
  have haq' : a.contains 'q' = false := contains_q_eq_false_of_single a ha1 haq
  have huq' : u.contains 'q' = false := contains_q_eq_false_of_single u hu1 huq
  have hr : refreshStep (⟨f0, d0⟩ : LoopState) f0 d0 fname = (⟨f0, d0⟩, []) :=
    refreshStep_same _ _ _ _ rfl
  have hr1 : (refreshStep (⟨f0, d0⟩ : LoopState) f0 d0 fname).1 = ⟨f0, d0⟩ := by rw [hr]
  have hr2 : (refreshStep (⟨f0, d0⟩ : LoopState) f0 d0 fname).2 = [] := by rw [hr]
  have h3 : runLoop reg (⟨f0, d0, fname, CursorResult.ok x3 y3 ['q']⟩ :: rest)
      ⟨f0, d0⟩ (some u) = ([Eff.readCursor], Outcome.completed) := by
    have h := runLoop_quit_mk reg f0 d0 fname rest ⟨f0, d0⟩ u x3 y3 ['q'] hune (by decide)
    rw [hr2] at h
    simpa using h
  have h2 : runLoop reg
      (⟨f0, d0, fname, CursorResult.ok x2 y2 u⟩ ::
       ⟨f0, d0, fname, CursorResult.ok x3 y3 ['q']⟩ :: rest) ⟨f0, d0⟩ (some a)
      = ([Eff.readCursor, Eff.invalidKeyMsg, Eff.readCursor], Outcome.completed) := by
    have h := runLoop_invalid_mk reg f0 d0 fname
      (⟨f0, d0, fname, CursorResult.ok x3 y3 ['q']⟩ :: rest) ⟨f0, d0⟩ a x2 y2 u
      hane hu huq'
    rw [hr2, hr1, h3] at h
    simpa using h
  have h1 : runLoop reg
      (⟨f0, d0, fname, CursorResult.ok x1 y1 a⟩ ::
       ⟨f0, d0, fname, CursorResult.ok x2 y2 u⟩ ::
       ⟨f0, d0, fname, CursorResult.ok x3 y3 ['q']⟩ :: rest) ⟨f0, d0⟩ (some k0)
      = ([Eff.readCursor, Eff.handlerCall (resolve reg a) d0 x1 y1,
          Eff.readCursor, Eff.invalidKeyMsg, Eff.readCursor], Outcome.completed) := by
    have h := runLoop_dispatch_mk reg f0 d0 fname
      (⟨f0, d0, fname, CursorResult.ok x2 y2 u⟩ ::
       ⟨f0, d0, fname, CursorResult.ok x3 y3 ['q']⟩ :: rest) ⟨f0, d0⟩ k0 x1 y1 a
      hk0 ha haq'
    rw [hr2, hr1, h2] at h
    simpa using h
  have himex := imexam_not_empty reg fname d0 f0
    (⟨f0, d0, fname, CursorResult.ok x1 y1 a⟩ ::
     ⟨f0, d0, fname, CursorResult.ok x2 y2 u⟩ ::
     ⟨f0, d0, fname, CursorResult.ok x3 y3 ['q']⟩ :: rest) hf
  rw [run_imexam_cons reg fname _ ⟨f0, d0⟩ k0 ks hks, h1] at himex
  have heq : imexam reg fname d0 f0
      (⟨f0, d0, fname, CursorResult.ok x1 y1 a⟩ ::
       ⟨f0, d0, fname, CursorResult.ok x2 y2 u⟩ ::
       ⟨f0, d0, fname, CursorResult.ok x3 y3 ['q']⟩ :: rest)
      = (Eff.fetch d0 :: Eff.banner :: printOptionsEff reg ++
          [Eff.logFile fname, Eff.readCursor,
           Eff.handlerCall (resolve reg a) d0 x1 y1,
           Eff.readCursor, Eff.invalidKeyMsg, Eff.readCursor],
         Outcome.completed) := himex
  refine ⟨heq, ?_, ?_⟩
  · rw [heq]
    exact (countHandler_header reg d0 _).trans rfl
  · rw [heq]
    exact (countInvalid_header reg d0 _).trans rfl

/-- Witness for `session_one_handler_one_invalid` on a one-key registry
and the script `[a, u, q]`. -/
theorem session_one_handler_one_invalid_witness :
    imexam [(['a'], ⟨1, ['P'], [], []⟩)] ['f'] [[7]] ['1']
        [⟨['1'], [[7]], ['f'], CursorResult.ok 10 20 ['a']⟩,
         ⟨['1'], [[7]], ['f'], CursorResult.ok 1 2 ['u']⟩,
         ⟨['1'], [[7]], ['f'], CursorResult.ok 3 4 ['q']⟩]
      = (Eff.fetch [[7]] :: Eff.banner ::
           printOptionsEff [(['a'], ⟨1, ['P'], [], []⟩)] ++
          [Eff.logFile ['f'], Eff.readCursor,
           Eff.handlerCall (resolve [(['a'], ⟨1, ['P'], [], []⟩)] ['a']) [[7]] 10 20,
           Eff.readCursor, Eff.invalidKeyMsg, Eff.readCursor],
         Outcome.completed) :=
  (session_one_handler_one_invalid [(['a'], ⟨1, ['P'], [], []⟩)] ['f'] [[7]] ['1']
    ['a'] ['u'] 10 20 1 2 3 4 []
    (by decide) (by decide) (by decide) (by decide) (by decide) (by decide)
    (by decide) (by decide)).1

end ImexamModel

namespace ImexamModel

/-- C9: a `KeyError` raised by `readcursor()` during the loop makes the
session print `Invalid key` (the same message as for a user typo,
exactly once) and then terminate the loop cleanly, invoking no handler
for that iteration; an exception of any type other than `KeyError`
raised by `readcursor()` propagates uncaught out of the session entry
point `Connect.imexam`. -/
theorem readcursor_exception_policy
    (reg : Registry) (fname : PyStr) (d0 : PixelBuffer) (f0 : PyStr)
    (fid : PyStr) (nd : PixelBuffer) (nf : PyStr) (e : PyExc)
    (rest : List IterInput)
    (hf : fname ≠ []) (hnil : [] ∉ list_keys reg) (hne : list_keys reg ≠ []) :
    (e = PyExc.keyError →
       imexam reg fname d0 f0 (⟨fid, nd, nf, CursorResult.exn e⟩ :: rest)
         = (Eff.fetch d0 :: Eff.banner :: printOptionsEff reg ++
             Eff.logFile fname ::
               ((refreshStep ⟨f0, d0⟩ fid nd nf).2 ++
                [Eff.readCursor, Eff.invalidKeyMsg]),
            Outcome.completed) ∧
       countInvalid
         (imexam reg fname d0 f0 (⟨fid, nd, nf, CursorResult.exn e⟩ :: rest)).1 = 1 ∧
       countHandler
         (imexam reg fname d0 f0 (⟨fid, nd, nf, CursorResult.exn e⟩ :: rest)).1 = 0) ∧
    (e ≠ PyExc.keyError →
       (imexam reg fname d0 f0 (⟨fid, nd, nf, CursorResult.exn e⟩ :: rest)).2
         = Outcome.raised e) := by
  have hk : ∃ k0 ks, list_keys reg = k0 :: ks := by
    cases h : list_keys reg with
    | nil => exact absurd h hne
    | cons k0 ks => exact ⟨k0, ks, rfl⟩
  obtain ⟨k0, ks, hks⟩ := hk
  have hk0 : ¬(k0 = []) := by
    intro h0
    apply hnil
    rw [hks, h0]
    exact List.mem_cons_self _ _
  constructor
  · intro hekey
    subst hekey
    have hl := runLoop_exn_mk reg fid nd nf rest ⟨f0, d0⟩ k0 PyExc.keyError hk0
    rw [if_pos rfl] at hl
    have himex := imexam_not_empty reg fname d0 f0
      (⟨fid, nd, nf, CursorResult.exn PyExc.keyError⟩ :: rest) hf
    rw [run_imexam_cons reg fname _ ⟨f0, d0⟩ k0 ks hks, hl] at himex
    have heq : imexam reg fname d0 f0
        (⟨fid, nd, nf, CursorResult.exn PyExc.keyError⟩ :: rest)
        = (Eff.fetch d0 :: Eff.banner :: printOptionsEff reg ++
            Eff.logFile fname ::
              ((refreshStep ⟨f0, d0⟩ fid nd nf).2 ++
               [Eff.readCursor, Eff.invalidKeyMsg]),
           Outcome.completed) := himex
    refine ⟨heq, ?_, ?_⟩
    · rw [heq]
      refine (countInvalid_header reg d0 _).trans ?_
      rw [countInvalid_cons, countInvalid_append, countInvalid_refresh]
      rfl
    · rw [heq]
      refine (countHandler_header reg d0 _).trans ?_
      rw [countHandler_cons, countHandler_append, countHandler_refresh]
      rfl
  · intro hne2
    have hl := runLoop_exn_mk reg fid nd nf rest ⟨f0, d0⟩ k0 e hk0
    rw [if_neg hne2] at hl
    have himex := imexam_not_empty reg fname d0 f0
      (⟨fid, nd, nf, CursorResult.exn e⟩ :: rest) hf
    rw [run_imexam_cons reg fname _ ⟨f0, d0⟩ k0 ks hks, hl] at himex
    rw [himex]

/-- Witness for `readcursor_exception_policy`: a `KeyError` ends the
session cleanly with one `Invalid key` message, while a non-`KeyError`
exception escapes as `raised`. -/
theorem readcursor_exception_policy_witness :
    (imexam [(['a'], ⟨1, ['a'], [], []⟩)] ['f'] [[2]] ['1']
        [⟨['1'], [[2]], ['f'], CursorResult.exn PyExc.keyError⟩]).2
      = Outcome.completed ∧
    countInvalid (imexam [(['a'], ⟨1, ['a'], [], []⟩)] ['f'] [[2]] ['1']
        [⟨['1'], [[2]], ['f'], CursorResult.exn PyExc.keyError⟩]).1 = 1 ∧
    (imexam [(['a'], ⟨1, ['a'], [], []⟩)] ['f'] [[2]] ['1']
        [⟨['1'], [[2]], ['f'], CursorResult.exn (PyExc.other 5)⟩]).2
      = Outcome.raised (PyExc.other 5) := by
  have h1 := (readcursor_exception_policy [(['a'], ⟨1, ['a'], [], []⟩)] ['f'] [[2]]
    ['1'] ['1'] [[2]] ['f'] PyExc.keyError [] (by decide) (by decide) (by decide)).1 rfl
  have h2 := (readcursor_exception_policy [(['a'], ⟨1, ['a'], [], []⟩)] ['f'] [[2]]
    ['1'] ['1'] [[2]] ['f'] (PyExc.other 5) [] (by decide) (by decide) (by decide)).2
    (by decide)
  exact ⟨by rw [h1.1], h1.2.1, h2⟩

/-- C7: with an image loaded, the session prints the entry banner and
then the option list — one line per registered key, carrying that key's
one-line description — before any cursor read: the trace starts with
this header (preceded only by the initial data fetch), the header
contains no cursor read, and the option list has exactly one line per
registered key. -/
theorem session_header_first (reg : Registry) (fname : PyStr) (d0 : PixelBuffer)
    (f0 : PyStr) (script : List IterInput) (hf : fname ≠ []) :
    ∃ t, (imexam reg fname d0 f0 script).1 =
        Eff.fetch d0 :: Eff.banner :: printOptionsEff reg ++ t ∧
      Eff.readCursor ∉ Eff.fetch d0 :: Eff.banner :: printOptionsEff reg ∧
      (printOptionsEff reg).length = (list_keys reg).length := by
  have hmem : Eff.readCursor ∉ Eff.fetch d0 :: Eff.banner :: printOptionsEff reg := by
    intro hm
    simp only [List.mem_cons] at hm
    rcases hm with hm | hm | hm
    · cases hm
    · cases hm
    · exact readCursor_not_mem_printOptions reg hm
  have hlen : (printOptionsEff reg).length = (list_keys reg).length := by
    simp [printOptionsEff, list_keys]
  have himex := imexam_not_empty reg fname d0 f0 script hf
  have htr : ∃ t, (imexam reg fname d0 f0 script).1 =
      Eff.fetch d0 :: Eff.banner :: printOptionsEff reg ++ t := by
    cases hks : list_keys reg with
    | nil =>
      have hrun : run_imexam reg fname script ⟨f0, d0⟩ =
          (Eff.banner :: printOptionsEff reg, Outcome.raised PyExc.indexError) := by
        unfold run_imexam
        rw [hks]
      refine ⟨[], ?_⟩
      rw [himex, hrun]
      simp
    | cons k0 ks =>
      have hrun := run_imexam_cons reg fname script ⟨f0, d0⟩ k0 ks hks
      refine ⟨Eff.logFile fname ::
        (runLoop reg script ⟨f0, d0⟩ (some k0)).1, ?_⟩
      rw [himex, hrun]
      rfl
  obtain ⟨t, ht⟩ := htr
  exact ⟨t, ht, hmem, hlen⟩

/-- Witness for `session_header_first` on a one-key registry with an
empty script. -/
theorem session_header_first_witness :
    ∃ t, (imexam [(['a'], ⟨1, ['d'], [], []⟩)] ['f'] [[3]] ['1'] []).1 =
        Eff.fetch [[3]] :: Eff.banner ::
          printOptionsEff [(['a'], ⟨1, ['d'], [], []⟩)] ++ t ∧
      Eff.readCursor ∉ Eff.fetch [[3]] :: Eff.banner ::
          printOptionsEff [(['a'], ⟨1, ['d'], [], []⟩)] ∧
      (printOptionsEff [(['a'], ⟨1, ['d'], [], []⟩)]).length =
        (list_keys [(['a'], ⟨1, ['d'], [], []⟩)]).length :=
  session_header_first [(['a'], ⟨1, ['d'], [], []⟩)] ['f'] [[3]] ['1'] [] (by decide)

end ImexamModel

namespace ImexamModel

/-- The viewer names accepted by `Connect.__init__`
(`_possible_viewers`, `connect.py` line 54). -/
def possible_viewers : List PyStr := [['d', 's', '9']]

/-- Python `str.lower`, applied character by character. -/
def pyLower (s : PyStr) : PyStr := s.map Char.toLower

/-- Python's substring test `needle in haystack` on strings. -/
def pyIn (needle haystack : PyStr) : Bool := decide (needle <:+: haystack)

/-- The attributes `Connect.__init__` sets when it succeeds: whether the
ds9 window object was constructed (`self.window`), whether the
`Imexamine` instance was created (`self.exam`), and the recorded
`self.current_frame`. -/
structure ConnectState where
  windowCreated : Bool
  examCreated : Bool
  current_frame : PyStr
deriving DecidableEq

/-- Outcome of `Connect.__init__`: either the `**Unsupported viewer`
warning followed by a raised `NotImplementedError` — with no window and
no session state created — or a fully initialized object. -/
inductive InitOutcome where
  | raisedUnsupported
  | initialized (st : ConnectState)
deriving DecidableEq

/-- `Connect.__init__` (lines 52-65 of `connect.py`): if the lowercased
viewer name is not in `_possible_viewers`, warn and raise
`NotImplementedError`; otherwise construct the ds9 window when the
substring `ds9` occurs in the lowercased name, create the `Imexamine`
instance and record the current frame (`initFrame` models what
`self.frame()` returns). -/
def connect_init (viewer : PyStr) (initFrame : PyStr) : InitOutcome :=
  if pyLower viewer ∉ possible_viewers then InitOutcome.raisedUnsupported
  else
    InitOutcome.initialized
      { windowCreated := pyIn ['d', 's', '9'] (pyLower viewer),
        examCreated := true,
        current_frame := initFrame }

/-- C8: for every viewer name other than a letter-case variant of `ds9`
(the name is lowercased and compared against `_possible_viewers`),
`Connect.__init__` warns and raises `NotImplementedError` and creates
no window or session state; for `ds9` in any letter case, construction
proceeds: the window is created, the examiner is initialized and the
current frame recorded. -/
theorem connect_viewer_check (viewer : PyStr) (fr : PyStr) :
    (pyLower viewer ∉ possible_viewers →
       connect_init viewer fr = InitOutcome.raisedUnsupported) ∧
    (pyLower viewer = ['d', 's', '9'] →
       connect_init viewer fr = InitOutcome.initialized
         { windowCreated := true, examCreated := true, current_frame := fr }) := by
  constructor
  · intro h
    simp only [connect_init, if_pos h]
  · intro h
    have hmem : ¬(pyLower viewer ∉ possible_viewers) := by
      rw [h]
      intro hc
      exact hc (by decide)
    have hinf : pyIn ['d', 's', '9'] (pyLower viewer) = true := by
      rw [h]
      decide
    simp only [connect_init, if_neg hmem, hinf]

/-- Witness for `connect_viewer_check`: the viewer name `foo` is
rejected with `NotImplementedError`, while `DS9` (uppercase) is
accepted and the window created. -/
theorem connect_viewer_check_witness :
    connect_init ['f', 'o', 'o'] ['1'] = InitOutcome.raisedUnsupported ∧
    connect_init ['D', 'S', '9'] ['1'] = InitOutcome.initialized
      { windowCreated := true, examCreated := true, current_frame := ['1'] } :=
  ⟨(connect_viewer_check ['f', 'o', 'o'] ['1']).1 (by decide),
   (connect_viewer_check ['D', 'S', '9'] ['1']).2 (by decide)⟩

/-- The names bound at module level by the imports of `connect.py`
(lines 7-13): `warnings`, `logging`, `subprocess`, `set_logging`,
`find_xpans`, `xpa`, `ds9`, `Imexamine`.  The `os` module is not among
them. -/
def connect_module_imports : List PyStr :=
  [['w', 'a', 'r', 'n', 'i', 'n', 'g', 's'],
   ['l', 'o', 'g', 'g', 'i', 'n', 'g'],
   ['s', 'u', 'b', 'p', 'r', 'o', 'c', 'e', 's', 's'],
   ['s', 'e', 't', '_', 'l', 'o', 'g', 'g', 'i', 'n', 'g'],
   ['f', 'i', 'n', 'd', '_', 'x', 'p', 'a', 'n', 's'],
   ['x', 'p', 'a'],
   ['d', 's', '9'],
   ['I', 'm', 'e', 'x', 'a', 'm', 'i', 'n', 'e']]

/-- What one call of `Connect.plotname` does. -/
inductive PlotnameResult where
  | showedCurrent
  | raisedNameError
  | warnedExists
  | renamed (f : PyStr)
deriving DecidableEq

/-- `Connect.plotname` (lines 322-331 of `connect.py`): a falsy
(empty/absent) filename shows the current default plot name; otherwise
the code evaluates `os.access(filename, os.F_OK)`, which first resolves
the name `os` against the module namespace — `os` is never imported, so
a `NameError` is raised before the filesystem is consulted, making the
warn-if-exists and set-name branches unreachable.  `fileExists` models
what the filesystem would answer if it were reached. -/
def plotname (filename : PyStr) (fileExists : Bool) : PlotnameResult :=
  if filename = [] then PlotnameResult.showedCurrent
  else if ('o' :: 's' :: []) ∈ connect_module_imports then
    (if fileExists then PlotnameResult.warnedExists
     else PlotnameResult.renamed filename)
  else PlotnameResult.raisedNameError

/-- C10: for every non-empty filename and either filesystem answer,
`Connect.plotname` raises `NameError` (the `os` module is referenced
but never imported) before examining the filesystem, so the plot save
name can never be changed through this method; calling it with no
argument (falsy filename) does not raise and shows the current name. -/
theorem plotname_raises_name_error (filename : PyStr) (fileExists : Bool) :
    (filename ≠ [] →
       plotname filename fileExists = PlotnameResult.raisedNameError) ∧
    plotname [] fileExists = PlotnameResult.showedCurrent ∧
    (∀ g, plotname filename fileExists ≠ PlotnameResult.renamed g) := by
  refine ⟨?_, rfl, ?_⟩
  · intro h
    simp only [plotname]
    rw [if_neg h, if_neg (by decide)]
  · intro g
    simp only [plotname]
    by_cases h : filename = []
    · rw [if_pos h]
      intro hc
      cases hc
    · rw [if_neg h, if_neg (by decide)]
      intro hc
      cases hc

/-- Witness for `plotname_raises_name_error`: a concrete filename hits
the `NameError`; the no-argument call shows the current name. -/
theorem plotname_raises_name_error_witness :
    plotname ['o', 'u', 't'] true = PlotnameResult.raisedNameError ∧
    plotname [] true = PlotnameResult.showedCurrent :=
  ⟨(plotname_raises_name_error ['o', 'u', 't'] true).1 (by decide),
   (plotname_raises_name_error ['o', 'u', 't'] true).2.1⟩

end ImexamModel
